import Mathlib

set_option maxRecDepth 8000

/-!
# Verification of the compiq change-detection and alerting pipeline

Shallow embedding of the core pipeline of the `compiq` competitor-monitoring
application (`app/monitor.py`, `app/analyzer.py`, `app/routes.py`,
`app/database.py`), together with proofs of the specification claims about it.

Modelling conventions:
* Python strings are Lean `String`; character-level slicing (`s[:n]`) is
  modelled through `List Char`.
* `datetime` timestamps are `Int` seconds; `timedelta(hours=h)` is `h * 3600`.
* Database rows are Lean structures; the SQLAlchemy session is modelled by
  explicit state passing over a `DB` structure of row lists.
* The external LLM call and the HTML text extraction are external
  collaborators; they enter the model as function parameters, so every theorem
  quantifies over their behaviour.
* `difflib.unified_diff` (Python standard library, used by
  `PageMonitor.compute_diff`) and `xxhash.xxh64` (used by
  `PageMonitor.compute_hash`) are embedded in full below so that the
  change-detection path is executable.
-/

/-! ## Python string primitives -/

/-- Python `str.isspace` characters relevant to `str.strip()` / `str.split()`. -/
def pyIsSpace (c : Char) : Bool :=
  c = ' ' || c = '\t' || c = '\n' || c = '\x0d' || c = '\x0b' || c = '\x0c'

/-- Python `s[:n]` on a string (first `n` characters). -/
def pyTake (n : Nat) (s : String) : String :=
  String.mk (s.data.take n)

/-- Python `s[n:]` on a string. -/
def pyDrop (n : Nat) (s : String) : String :=
  String.mk (s.data.drop n)

/-- Python `s.strip()`: remove leading and trailing whitespace. -/
def pyStrip (s : String) : String :=
  String.mk (((s.data.dropWhile pyIsSpace).reverse.dropWhile pyIsSpace).reverse)

/-- Helper for `pySplit`: accumulate maximal non-whitespace runs. -/
def pySplitAux : List Char → List Char → List String
  | [], acc => if acc.isEmpty then [] else [String.mk acc.reverse]
  | c :: cs, acc =>
    if pyIsSpace c then
      if acc.isEmpty then pySplitAux cs [] else String.mk acc.reverse :: pySplitAux cs []
    else
      pySplitAux cs (c :: acc)

/-- Python `s.split()` with no separator: split on whitespace runs,
discarding leading/trailing whitespace and empty fields. -/
def pySplit (s : String) : List String :=
  pySplitAux s.data []

/-- Helper for `pySplitChar`. -/
def pySplitCharAux (sep : Char) : List Char → List Char → List String
  | [], acc => [String.mk acc.reverse]
  | c :: cs, acc =>
    if c = sep then String.mk acc.reverse :: pySplitCharAux sep cs []
    else pySplitCharAux sep cs (c :: acc)

/-- Python `s.split(sep)` for a one-character separator (empty fields kept;
the empty string splits to `[""]`). -/
def pySplitChar (sep : Char) (s : String) : List String :=
  pySplitCharAux sep s.data []

/-- Python `sep.join(xs)`. -/
def pyJoin (sep : String) : List String → String
  | [] => ""
  | [x] => x
  | x :: xs => x ++ sep ++ pyJoin sep xs

/-- Helper for `pyStartsWith`. -/
def strStarts : List Char → List Char → Bool
  | [], _ => true
  | _ :: _, [] => false
  | p :: ps, c :: cs => p == c && strStarts ps cs

/-- Python `s.startswith(pre)`. -/
def pyStartsWith (pre s : String) : Bool :=
  strStarts pre.data s.data

/-! ## UTF-8 encoding (Python `str.encode()`) -/

/-- UTF-8 encoding of a single code point, as byte values. -/
def utf8EncodeChar (c : Char) : List Nat :=
  let n := c.toNat
  if n < 0x80 then [n]
  else if n < 0x800 then
    [0xC0 ||| (n >>> 6), 0x80 ||| (n &&& 0x3F)]
  else if n < 0x10000 then
    [0xE0 ||| (n >>> 12), 0x80 ||| ((n >>> 6) &&& 0x3F), 0x80 ||| (n &&& 0x3F)]
  else
    [0xF0 ||| (n >>> 18), 0x80 ||| ((n >>> 12) &&& 0x3F),
     0x80 ||| ((n >>> 6) &&& 0x3F), 0x80 ||| (n &&& 0x3F)]

/-- Python `s.encode()`: UTF-8 bytes of a string. -/
def utf8Encode (s : String) : List Nat :=
  (s.data.map utf8EncodeChar).flatten

/-! ## xxHash64 (the `xxhash.xxh64(...).hexdigest()` call in `compute_hash`)

Direct embedding of the XXH64 algorithm on 64-bit words represented as
`Nat` reduced modulo `2 ^ 64`. -/

def prime64_1 : Nat := 11400714785074694791
def prime64_2 : Nat := 14029467366897019727
def prime64_3 : Nat := 1609587929392839161
def prime64_4 : Nat := 9650029242287828579
def prime64_5 : Nat := 2870177450012600261

def add64 (a b : Nat) : Nat := (a + b) % 2 ^ 64

def mul64 (a b : Nat) : Nat := (a * b) % 2 ^ 64

/-- 64-bit left rotation (operands assumed `< 2 ^ 64`). -/
def rotl64 (x r : Nat) : Nat :=
  ((x <<< r) ||| (x >>> (64 - r))) % 2 ^ 64

/-- Little-endian read of the first 8 bytes of a byte list as a 64-bit word. -/
def le64 (bs : List Nat) : Nat :=
  (List.range 8).foldl (fun acc i => acc + (bs.getD i 0) <<< (8 * i)) 0

/-- Little-endian read of the first 4 bytes of a byte list as a 32-bit word. -/
def le32 (bs : List Nat) : Nat :=
  (List.range 4).foldl (fun acc i => acc + (bs.getD i 0) <<< (8 * i)) 0

def xxh64Round (acc input : Nat) : Nat :=
  mul64 (rotl64 (add64 acc (mul64 input prime64_2)) 31) prime64_1

def xxh64MergeRound (acc val : Nat) : Nat :=
  add64 (mul64 (acc ^^^ xxh64Round 0 val) prime64_1) prime64_4

/-- Process 32-byte stripes through the four accumulators.  The `fuel`
argument only drives structural recursion; `xxh64` supplies enough fuel
(`bs.length`) that the loop always runs to completion. -/
def xxh64StripesAux (fuel : Nat) (v1 v2 v3 v4 : Nat) (bs : List Nat) :
    Nat × Nat × Nat × Nat × List Nat :=
  match fuel with
  | 0 => (v1, v2, v3, v4, bs)
  | fuel + 1 =>
    if 32 ≤ bs.length then
      xxh64StripesAux fuel
        (xxh64Round v1 (le64 bs))
        (xxh64Round v2 (le64 (bs.drop 8)))
        (xxh64Round v3 (le64 (bs.drop 16)))
        (xxh64Round v4 (le64 (bs.drop 24)))
        (bs.drop 32)
    else
      (v1, v2, v3, v4, bs)

def xxh64Stripes (v1 v2 v3 v4 : Nat) (bs : List Nat) :
    Nat × Nat × Nat × Nat × List Nat :=
  xxh64StripesAux bs.length v1 v2 v3 v4 bs

/-- Tail processing, 8-byte chunks (fuel-driven structural recursion). -/
def xxh64Tail8Aux (fuel : Nat) (h : Nat) (bs : List Nat) : Nat × List Nat :=
  match fuel with
  | 0 => (h, bs)
  | fuel + 1 =>
    if 8 ≤ bs.length then
      let k1 := xxh64Round 0 (le64 bs)
      xxh64Tail8Aux fuel
        (add64 (mul64 (rotl64 (h ^^^ k1) 27) prime64_1) prime64_4) (bs.drop 8)
    else
      (h, bs)

def xxh64Tail8 (h : Nat) (bs : List Nat) : Nat × List Nat :=
  xxh64Tail8Aux bs.length h bs

def xxh64TailBytes (h : Nat) : List Nat → Nat
  | [] => h
  | b :: bs =>
    xxh64TailBytes (mul64 (rotl64 (h ^^^ mul64 b prime64_5) 11) prime64_1) bs

def xxh64Finalize (h : Nat) (bs : List Nat) : Nat :=
  let (h, bs) := xxh64Tail8 h bs
  let (h, bs) :=
    if 4 ≤ bs.length then
      (add64 (mul64 (rotl64 (h ^^^ mul64 (le32 bs) prime64_1) 23) prime64_2) prime64_3,
       bs.drop 4)
    else (h, bs)
  xxh64TailBytes h bs

def xxh64Avalanche (h : Nat) : Nat :=
  let h := mul64 (h ^^^ (h >>> 33)) prime64_2
  let h := mul64 (h ^^^ (h >>> 29)) prime64_3
  h ^^^ (h >>> 32)

/-- XXH64 of a byte sequence with the given seed. -/
def xxh64 (input : List Nat) (seed : Nat) : Nat :=
  let len := input.length
  let h :=
    if 32 ≤ len then
      let (v1, v2, v3, v4, rest) :=
        xxh64Stripes
          (add64 (add64 seed prime64_1) prime64_2)
          (add64 seed prime64_2)
          (seed % 2 ^ 64)
          ((seed % 2 ^ 64 + 2 ^ 64 - prime64_1) % 2 ^ 64)
          input
      let h := add64 (add64 (add64 (rotl64 v1 1) (rotl64 v2 7)) (rotl64 v3 12))
        (rotl64 v4 18)
      let h := xxh64MergeRound h v1
      let h := xxh64MergeRound h v2
      let h := xxh64MergeRound h v3
      let h := xxh64MergeRound h v4
      xxh64Finalize (add64 h len) rest
    else
      xxh64Finalize (add64 (add64 seed prime64_5) len) input
  xxh64Avalanche h

def hexDigit (n : Nat) : Char :=
  if n < 10 then Char.ofNat (48 + n) else Char.ofNat (87 + n)

/-- Lowercase, zero-padded 16-digit hex rendering (`hexdigest()`). -/
def hex16 (n : Nat) : String :=
  String.mk ((List.range 16).map fun i => hexDigit ((n >>> (4 * (15 - i))) % 16))

/-- Published XXH64 test vector: the empty input with seed 0. -/
example : hex16 (xxh64 [] 0) = "ef46db3751d8e999" := by decide

/-- Published XXH64 test vector: "abc" with seed 0. -/
example : hex16 (xxh64 (utf8Encode "abc") 0) = "44bc2cf5ad770999" := by decide

/-- Published XXH64 test vector exercising the 32-byte stripe path. -/
example :
    hex16 (xxh64 (utf8Encode "The quick brown fox jumps over the lazy dog") 0) =
      "0b242d361fda71bc" := by decide

/-! ## `PageMonitor.compute_hash` (monitor.py lines 87-91) -/

/-- `compute_hash`: normalize whitespace (`' '.join(content.split())`), then
`xxhash.xxh64(normalized.encode()).hexdigest()`. -/
def compute_hash (content : String) : String :=
  let normalized := pyJoin " " (pySplit content)
  hex16 (xxh64 (utf8Encode normalized) 0)

/-! ## `difflib.SequenceMatcher` and `difflib.unified_diff`

`PageMonitor.compute_diff` calls the Python standard library's
`difflib.unified_diff(old_lines, new_lines, fromfile='previous',
tofile='current', lineterm='')`.  The whole algorithm (CPython's
`SequenceMatcher` with `isjunk=None`, including the autojunk popularity
heuristic) is embedded below.  Loops whose Python form is `while`-based are
driven by a `fuel` argument for structural recursion; every call site supplies
fuel that provably dominates the number of iterations, so the embedded
functions agree with the unbounded loops. -/

/-- A matching block `(i, j, size)` as produced by `find_longest_match`. -/
structure Match3 where
  besti : Nat
  bestj : Nat
  bestsize : Nat
  deriving DecidableEq, Repr

/-- An opcode `(tag, i1, i2, j1, j2)` as produced by `get_opcodes`. -/
structure Opcode where
  tag : String
  i1 : Nat
  i2 : Nat
  j1 : Nat
  j2 : Nat
  deriving DecidableEq, Repr

/-- Append an index to the entry of `k` in the `b2j` association list
(`b2j.setdefault(elt, []).append(j)`). -/
def assocAppendIdx (m : List (String × List Nat)) (k : String) (v : Nat) :
    List (String × List Nat) :=
  if m.any (fun p => p.1 == k) then
    m.map (fun p => if p.1 == k then (p.1, p.2 ++ [v]) else p)
  else
    m ++ [(k, [v])]

/-- First phase of `__chain_b`: map each line of `b` to its ascending list of
indices in `b`. -/
def b2jBuild (b : List String) : List (String × List Nat) :=
  b.enum.foldl (fun m p => assocAppendIdx m p.2 p.1) []

/-- `__chain_b` with `isjunk=None` and `autojunk=True`: for `len(b) >= 200`,
lines occurring more than `n // 100 + 1` times are dropped as popular. -/
def b2jOf (b : List String) : List (String × List Nat) :=
  let m := b2jBuild b
  let n := b.length
  if 200 ≤ n then
    let ntest := n / 100 + 1
    m.filter (fun p => !(ntest < p.2.length))
  else m

def b2jGet (m : List (String × List Nat)) (k : String) : List Nat :=
  match m.find? (fun p => p.1 == k) with
  | some p => p.2
  | none => []

def j2lenGet (j2 : List (Nat × Nat)) (k : Nat) : Nat :=
  match j2.find? (fun p => p.1 == k) with
  | some p => p.2
  | none => 0

/-- Inner loop of `find_longest_match` over the index list `b2j[a[i]]`
(ascending): indices below `blo` are skipped (`continue`), the loop stops at
the first index `≥ bhi` (`break`).  Accumulates `newj2len` and the best match.
Python's `j2len.get(j-1, 0)` looks up `-1` when `j = 0`, which always misses,
hence the explicit `j = 0` case. -/
def flmInner (blo bhi i : Nat) (j2len : List (Nat × Nat)) :
    List Nat → List (Nat × Nat) → Match3 → List (Nat × Nat) × Match3
  | [], newj2len, best => (newj2len, best)
  | j :: js, newj2len, best =>
    if j < blo then
      flmInner blo bhi i j2len js newj2len best
    else if bhi ≤ j then
      (newj2len, best)
    else
      let k := (if j = 0 then 0 else j2lenGet j2len (j - 1)) + 1
      let newj2len := (j, k) :: newj2len
      let best := if best.bestsize < k then ⟨i + 1 - k, j + 1 - k, k⟩ else best
      flmInner blo bhi i j2len js newj2len best

/-- Outer loop of `find_longest_match` over `i ∈ [alo, ahi)`. -/
def flmCore (a : List String) (m : List (String × List Nat)) (alo ahi blo bhi : Nat) :
    Match3 :=
  ((List.range' alo (ahi - alo)).foldl
    (fun (st : List (Nat × Nat) × Match3) i =>
      flmInner blo bhi i st.1 (b2jGet m (a.getD i "")) [] st.2)
    ([], ⟨alo, blo, 0⟩)).2

/-- The backward extension loop of `find_longest_match` (no junk, so the
junk predicate in the Python condition is constantly false). -/
def flmExtendBack (a b : List String) (alo blo : Nat) : Nat → Match3 → Match3
  | 0, best => best
  | fuel + 1, best =>
    if alo < best.besti && blo < best.bestj &&
        a.getD (best.besti - 1) "" == b.getD (best.bestj - 1) "" then
      flmExtendBack a b alo blo fuel ⟨best.besti - 1, best.bestj - 1, best.bestsize + 1⟩
    else best

/-- The forward extension loop of `find_longest_match`. -/
def flmExtendFwd (a b : List String) (ahi bhi : Nat) : Nat → Match3 → Match3
  | 0, best => best
  | fuel + 1, best =>
    if best.besti + best.bestsize < ahi && best.bestj + best.bestsize < bhi &&
        a.getD (best.besti + best.bestsize) "" == b.getD (best.bestj + best.bestsize) "" then
      flmExtendFwd a b ahi bhi fuel ⟨best.besti, best.bestj, best.bestsize + 1⟩
    else best

/-- `SequenceMatcher.find_longest_match` on `a[alo:ahi]` / `b[blo:bhi]`.
With `isjunk=None` the junk-extension loops never fire, so only the two
interesting-extension loops remain.  The backward loop runs at most `besti`
times and the forward loop at most `ahi` times, so `ahi` fuel suffices for
both (`besti ≤ ahi` always holds at call sites). -/
def find_longest_match (a b : List String) (m : List (String × List Nat))
    (alo ahi blo bhi : Nat) : Match3 :=
  flmExtendFwd a b ahi bhi ahi (flmExtendBack a b alo blo ahi (flmCore a m alo ahi blo bhi))

/-- The queue-driven loop of `get_matching_blocks`.  The queue is a LIFO stack
(Python `list.pop()` pops the last element; the head of this list is the top).
Each iteration removes a region and pushes sub-regions whose combined measure
`Σ (ahi - alo + bhi - blo + 1)` strictly decreases, so
`a.length + b.length + 1` fuel dominates the iteration count. -/
def gmbLoop (a b : List String) (m : List (String × List Nat)) :
    Nat → List (Nat × Nat × Nat × Nat) → List Match3 → List Match3
  | 0, _, acc => acc
  | _ + 1, [], acc => acc
  | fuel + 1, (alo, ahi, blo, bhi) :: rest, acc =>
    let x := find_longest_match a b m alo ahi blo bhi
    if x.bestsize ≠ 0 then
      let rest := if alo < x.besti && blo < x.bestj then
        (alo, x.besti, blo, x.bestj) :: rest else rest
      let rest := if x.besti + x.bestsize < ahi && x.bestj + x.bestsize < bhi then
        (x.besti + x.bestsize, ahi, x.bestj + x.bestsize, bhi) :: rest else rest
      gmbLoop a b m fuel rest (acc ++ [x])
    else
      gmbLoop a b m fuel rest acc

/-- Lexicographic order on matching blocks (Python tuple `sort()`). -/
def blockLe (x y : Match3) : Bool :=
  x.besti < y.besti ||
    (x.besti == y.besti &&
      (x.bestj < y.bestj || (x.bestj == y.bestj && x.bestsize ≤ y.bestsize)))

def insertBlock (x : Match3) : List Match3 → List Match3
  | [] => [x]
  | y :: ys => if blockLe x y then x :: y :: ys else y :: insertBlock x ys

def sortBlocks (l : List Match3) : List Match3 :=
  l.foldr insertBlock []

/-- The adjacent-block merging pass of `get_matching_blocks`, starting from
`i1 = j1 = k1 = 0` exactly as in CPython. -/
def mergeAdjacent : Nat → Nat → Nat → List Match3 → List Match3
  | i1, j1, k1, [] => if k1 ≠ 0 then [⟨i1, j1, k1⟩] else []
  | i1, j1, k1, ⟨i2, j2, k2⟩ :: rest =>
    if i1 + k1 = i2 && j1 + k1 = j2 then
      mergeAdjacent i1 j1 (k1 + k2) rest
    else
      (if k1 ≠ 0 then [⟨i1, j1, k1⟩] else []) ++ mergeAdjacent i2 j2 k2 rest

/-- `SequenceMatcher.get_matching_blocks`, ending with the `(la, lb, 0)`
sentinel. -/
def get_matching_blocks (a b : List String) : List Match3 :=
  let m := b2jOf b
  let blocks := sortBlocks
    (gmbLoop a b m (a.length + b.length + 1) [(0, a.length, 0, b.length)] [])
  mergeAdjacent 0 0 0 blocks ++ [⟨a.length, b.length, 0⟩]

/-- The block-to-opcode loop of `get_opcodes`, threading the cursor `(i, j)`. -/
def opcodesAux : Nat → Nat → List Match3 → List Opcode
  | _, _, [] => []
  | i, j, ⟨ai, bj, size⟩ :: rest =>
    let tag := if i < ai && j < bj then "replace"
      else if i < ai then "delete"
      else if j < bj then "insert"
      else ""
    (if tag ≠ "" then [⟨tag, i, ai, j, bj⟩] else []) ++
      (if size ≠ 0 then [⟨"equal", ai, ai + size, bj, bj + size⟩] else []) ++
      opcodesAux (ai + size) (bj + size) rest

/-- `SequenceMatcher.get_opcodes`. -/
def get_opcodes (a b : List String) : List Opcode :=
  opcodesAux 0 0 (get_matching_blocks a b)

/-- `get_grouped_opcodes`: shrink a leading `equal` opcode to `n` context
lines (Python `max(i1, i2-n)`, safe under truncated subtraction since
`i1 ≥ 0`). -/
def adjustFirst (n : Nat) : List Opcode → List Opcode
  | [] => []
  | c :: rest =>
    if c.tag = "equal" then
      ⟨c.tag, max c.i1 (c.i2 - n), c.i2, max c.j1 (c.j2 - n), c.j2⟩ :: rest
    else c :: rest

/-- `get_grouped_opcodes`: shrink a trailing `equal` opcode to `n` context
lines. -/
def adjustLast (n : Nat) : List Opcode → List Opcode
  | [] => []
  | [c] =>
    if c.tag = "equal" then
      [⟨c.tag, c.i1, min c.i2 (c.i1 + n), c.j1, min c.j2 (c.j1 + n)⟩]
    else [c]
  | c :: rest => c :: adjustLast n rest

/-- The grouping loop of `get_grouped_opcodes`: split at `equal` opcodes
spanning more than `2 * n` lines, and drop a final group that is a single
`equal` opcode. -/
def groupOpcodes (n : Nat) : List Opcode → List Opcode → List (List Opcode)
  | [], group =>
    if group ≠ [] &&
        !(group.length == 1 && (group.headD ⟨"", 0, 0, 0, 0⟩).tag == "equal") then
      [group]
    else []
  | c :: rest, group =>
    if c.tag = "equal" && 2 * n < c.i2 - c.i1 then
      (group ++ [⟨c.tag, c.i1, min c.i2 (c.i1 + n), c.j1, min c.j2 (c.j1 + n)⟩]) ::
        groupOpcodes n rest [⟨c.tag, max c.i1 (c.i2 - n), c.i2, max c.j1 (c.j2 - n), c.j2⟩]
    else
      groupOpcodes n rest (group ++ [c])

/-- `SequenceMatcher.get_grouped_opcodes(n)`. -/
def get_grouped_opcodes (a b : List String) (n : Nat) : List (List Opcode) :=
  let codes := get_opcodes a b
  let codes := if codes = [] then [⟨"equal", 0, 1, 0, 1⟩] else codes
  groupOpcodes n (adjustLast n (adjustFirst n codes)) []

/-- `difflib._format_range_unified`. -/
def formatRangeUnified (start stop : Nat) : String :=
  let beginning := start + 1
  let length := stop - start
  if length = 1 then toString beginning
  else
    let beginning := if length = 0 then beginning - 1 else beginning
    toString beginning ++ "," ++ toString length

/-- The per-opcode body lines of a unified-diff hunk. -/
def opcodeLines (a b : List String) (c : Opcode) : List String :=
  if c.tag = "equal" then
    ((a.drop c.i1).take (c.i2 - c.i1)).map (fun line => " " ++ line)
  else
    (if c.tag = "replace" || c.tag = "delete" then
      ((a.drop c.i1).take (c.i2 - c.i1)).map (fun line => "-" ++ line)
    else []) ++
    (if c.tag = "replace" || c.tag = "insert" then
      ((b.drop c.j1).take (c.j2 - c.j1)).map (fun line => "+" ++ line)
    else [])

/-- One unified-diff hunk: the `@@ -r1 +r2 @@` header plus body lines. -/
def hunkOf (a b : List String) (group : List Opcode) : List String :=
  let first := group.headD ⟨"", 0, 0, 0, 0⟩
  let last := group.getLastD ⟨"", 0, 0, 0, 0⟩
  ("@@ -" ++ formatRangeUnified first.i1 last.i2 ++ " +" ++
      formatRangeUnified first.j1 last.j2 ++ " @@") ::
    group.flatMap (opcodeLines a b)

/-- `difflib.unified_diff(a, b, fromfile, tofile, lineterm='')` with `n = 3`:
the `---`/`+++` headers are emitted once before the first group, so an input
pair with no groups yields no lines at all. -/
def unified_diff (a b : List String) (fromfile tofile : String) : List String :=
  let groups := get_grouped_opcodes a b 3
  if groups.isEmpty then []
  else ("--- " ++ fromfile) :: ("+++ " ++ tofile) :: groups.flatMap (hunkOf a b)

/-! ## `PageMonitor.compute_diff` and `PageMonitor.summarize_changes`
(monitor.py lines 93-140) -/

/-- `compute_diff`: line-split both texts, run `unified_diff`, join with
newlines. -/
def compute_diff (old_content new_content : String) : String :=
  pyJoin "\n"
    (unified_diff (pySplitChar '\n' old_content) (pySplitChar '\n' new_content)
      "previous" "current")

/-- The `added_lines` accumulation of `summarize_changes`: diff lines starting
with `+` but not `+++`, with `line[1:].strip()` applied. -/
def added_lines_of (diff : String) : List String :=
  ((pySplitChar '\n' diff).filter
    (fun line => pyStartsWith "+" line && !pyStartsWith "+++" line)).map
    (fun line => pyStrip (pyDrop 1 line))

/-- The `removed_lines` accumulation of `summarize_changes`. -/
def removed_lines_of (diff : String) : List String :=
  ((pySplitChar '\n' diff).filter
    (fun line => pyStartsWith "-" line && !pyStartsWith "---" line)).map
    (fun line => pyStrip (pyDrop 1 line))

/-- The blank-line filter (`[l for l in added_lines if l]`). -/
def nonblank (lines : List String) : List String :=
  lines.filter (fun l => l ≠ "")

/-- The `summary_parts` list assembled by `summarize_changes`: per direction,
a section listing the first 10 non-blank lines truncated to 100 characters,
followed by an `... and N more lines` part when more than 10 lines exist. -/
def summary_parts (diff : String) : List String :=
  let added := nonblank (added_lines_of diff)
  let removed := nonblank (removed_lines_of diff)
  (if added ≠ [] then
    ["Added (" ++ toString added.length ++ " lines):\n" ++
      pyJoin "\n" ((added.take 10).map (fun line => "  + " ++ pyTake 100 line))]
  else []) ++
  (if 10 < added.length then
    ["  ... and " ++ toString (added.length - 10) ++ " more lines"]
  else []) ++
  (if removed ≠ [] then
    ["Removed (" ++ toString removed.length ++ " lines):\n" ++
      pyJoin "\n" ((removed.take 10).map (fun line => "  - " ++ pyTake 100 line))]
  else []) ++
  (if 10 < removed.length then
    ["  ... and " ++ toString (removed.length - 10) ++ " more lines"]
  else [])

/-- `summarize_changes`. -/
def summarize_changes (diff : String) : String :=
  if diff = "" then "No changes detected"
  else if summary_parts diff ≠ [] then pyJoin "\n\n" (summary_parts diff)
  else "Minor formatting changes only"

/-! ## Data model (database.py)

Structures carry the columns that the verified pipeline logic reads or
writes.  Purely presentational text columns (`title`, `summary`,
`raw_content`, `diff_content`, `analysis`, `assumptions`,
`recommended_actions`, `playbook_used`) and the notification bookkeeping
columns are not referenced by any verified property and are omitted from the
row structures. -/

/-- The `SignalType` enumeration values. -/
def signal_type_values : List String :=
  ["product_launch", "pricing_change", "feature_update", "partnership",
   "acquisition", "leadership_change", "marketing_campaign", "certification",
   "expansion", "regulatory", "other"]

/-- The `RiskLevel` enumeration values. -/
def risk_level_values : List String :=
  ["critical", "high", "medium", "low", "info"]

/-- The `AlertStatus` enumeration values. -/
def alert_status_values : List String :=
  ["new", "acknowledged", "in_progress", "resolved", "dismissed"]

/-- A `monitored_urls` row (the polling-state columns used by `check_url`). -/
structure MonitoredURL where
  id : Nat
  competitor_id : Nat
  url : String
  last_checked_at : Option Int
  last_content_hash : Option String
  last_content : Option String
  consecutive_errors : Int
  last_error : Option String
  deriving DecidableEq, Repr

/-- A `page_snapshots` row. -/
structure PageSnapshot where
  id : Nat
  monitored_url_id : Nat
  content_hash : String
  content : String
  extracted_text : String
  has_changes : Bool
  diff_summary : Option String
  captured_at : Int
  deriving DecidableEq, Repr

/-- A `news_items` row (columns consumed by the analyzer). -/
structure NewsItem where
  id : Nat
  competitor_id : Option Nat
  title : String
  url : String
  is_processed : Bool
  is_relevant : Option Bool
  deriving DecidableEq, Repr

/-- An `alerts` row. -/
structure Alert where
  id : Nat
  competitor_id : Option Nat
  source_type : String
  source_id : Nat
  source_url : String
  signal_type : String
  risk_level : String
  risk_score : Int
  confidence_score : Int
  status : String
  assigned_to : Option String
  resolution_notes : Option String
  detected_at : Int
  acknowledged_at : Option Int
  resolved_at : Option Int
  deriving DecidableEq, Repr

/-- Python truthiness of an optional string column (`None` and `''` are
falsy). -/
def truthyStr : Option String → Bool
  | none => false
  | some s => s ≠ ""

/-! ## `PageMonitor.check_url` (monitor.py lines 142-205)

The fetch result and the HTML text extraction are external collaborators:
`fetched` is `Except error_message html_content` (mirroring `fetch_page`'s
`(content, error)` pair), and `extract` stands for `extract_text`, whose
BeautifulSoup/html2text machinery is outside the model (its `except` branch
returns `""`).  `now` is `datetime.utcnow()` and `fresh_id` is the primary
key the database would assign to the inserted snapshot. -/

/-- The outcome of one `check_url` call: the updated `monitored_urls` row, the
snapshots inserted into the session, and the method's return value. -/
structure CheckOutcome where
  url_state : MonitoredURL
  created : List PageSnapshot
  returned : Option PageSnapshot
  deriving DecidableEq, Repr

def check_url (extract : String → String) (m : MonitoredURL)
    (fetched : Except String String) (now : Int) (fresh_id : Nat) : CheckOutcome :=
  match fetched with
  | .error e =>
    { url_state :=
        { m with
          last_error := some e
          consecutive_errors := m.consecutive_errors + 1
          last_checked_at := some now }
      created := []
      returned := none }
  | .ok html_content =>
    let m := { m with
      consecutive_errors := 0
      last_error := none
      last_checked_at := some now }
    let extracted_text := extract html_content
    let content_hash := compute_hash extracted_text
    let hc_ds : Bool × Option String :=
      if truthyStr m.last_content_hash then
        if content_hash ≠ m.last_content_hash.getD "" then
          (true,
            if truthyStr m.last_content then
              some (summarize_changes (compute_diff (m.last_content.getD "") extracted_text))
            else none)
        else (false, none)
      else (false, none)
    let has_changes := hc_ds.1
    let diff_summary := hc_ds.2
    let snapshot : PageSnapshot :=
      { id := fresh_id
        monitored_url_id := m.id
        content_hash := content_hash
        content := pyTake 50000 html_content
        extracted_text := pyTake 50000 extracted_text
        has_changes := has_changes
        diff_summary := diff_summary
        captured_at := now }
    let m := { m with
      last_content_hash := some content_hash
      last_content := some (pyTake 50000 extracted_text) }
    { url_state := m
      created := [snapshot]
      returned := if has_changes then some snapshot else none }

/-! ## `Analyzer.analyze_content` (analyzer.py lines 323-424)

The LLM call is an external collaborator.  Its outcome is modelled as
`Except String LLMResponse`: `.error e` covers every exception raised inside
the `try` block (network failure, non-JSON output, `int()` conversion
failure, a missing client, ...), and `.ok j` is the parsed JSON object with
the fields `analyze_content` reads (absent keys are `none`, matching
`dict.get` defaults).  Recommended-action dicts are association lists of
string pairs.  The playbook table loaded from `config/playbooks.yaml` enters
as the lookup function `playbook_actions_of`, modelling
`self.playbooks.get('playbooks', {}).get(name, {}).get('actions', [])`. -/

/-- A recommended-action dict. -/
abbrev ActionItem := List (String × String)

/-- The fields of the parsed LLM JSON object read by `analyze_content`. -/
structure LLMResponse where
  summary : Option String
  signal_type : Option String
  risk_level : Option String
  risk_score : Option Int
  confidence_score : Option Int
  relevance_to_fluke : Option String
  assumptions : Option (List String)
  recommended_playbook : Option String
  immediate_actions : Option (List ActionItem)
  deriving DecidableEq, Repr

/-- The `AnalysisResult` dataclass (analyzer.py lines 21-33).  `raw_analysis`
keeps the boundary input (parsed JSON or the error string). -/
structure AnalysisResult where
  summary : String
  signal_type : String
  risk_level : String
  risk_score : Int
  confidence_score : Int
  relevance_explanation : String
  assumptions : List String
  recommended_actions : List ActionItem
  playbook_used : Option String
  raw_analysis : Except String LLMResponse
  deriving Repr

/-- The fixed action item of the degraded result returned on analysis
failure. -/
def manual_review_action : ActionItem :=
  [("action", "Manual review required"),
   ("owner", "Competitive Intelligence"),
   ("priority", "high")]

def analyze_content (playbook_actions_of : String → List ActionItem)
    (response : Except String LLMResponse) : AnalysisResult :=
  match response with
  | .ok j =>
    let signal_type := j.signal_type.getD "other"
    let signal_type :=
      if signal_type_values.contains signal_type then signal_type else "other"
    let risk_level := j.risk_level.getD "medium"
    let risk_level :=
      if risk_level_values.contains risk_level then risk_level else "medium"
    let playbook_name := j.recommended_playbook.getD "default"
    let playbook_actions := playbook_actions_of playbook_name
    let immediate_actions := j.immediate_actions.getD []
    { summary := j.summary.getD "Analysis completed"
      signal_type := signal_type
      risk_level := risk_level
      risk_score := min 100 (max 0 (j.risk_score.getD 50))
      confidence_score := min 100 (max 0 (j.confidence_score.getD 70))
      relevance_explanation := j.relevance_to_fluke.getD ""
      assumptions := j.assumptions.getD []
      recommended_actions := immediate_actions ++ playbook_actions
      playbook_used := some playbook_name
      raw_analysis := response }
  | .error e =>
    { summary := "Error analyzing content: " ++ e
      signal_type := "other"
      risk_level := "medium"
      risk_score := 50
      confidence_score := 0
      relevance_explanation := "Analysis failed"
      assumptions := ["Analysis could not be completed"]
      recommended_actions := [manual_review_action]
      playbook_used := none
      raw_analysis := response }

/-! ## The analysis orchestrator (analyzer.py lines 426-612)

The persistence store is the`DB` structure below; every mutation the Python
code performs through the SQLAlchemy session becomes a functional update.
`analyze_content` always returns (it never raises, see `analyze_content` and
claim C6), so the orchestrator is modelled without the per-item `except`
arms, which in the source only fire on session-level failures.  The analysis
oracles map each work item to the `AnalysisResult` the LLM boundary produced
for its content bundle; `now` is `datetime.utcnow()` for the run. -/

/-- The persistence store: the four row sets the orchestrator touches, plus
the next `alerts` primary key the database would assign. -/
structure DB where
  monitored_urls : List MonitoredURL
  snapshots : List PageSnapshot
  news_items : List NewsItem
  alerts : List Alert
  next_alert_id : Nat
  deriving DecidableEq, Repr

/-- `Analyzer._has_recent_alert` (analyzer.py lines 488-498): does any Alert
with this `source_url` have `detected_at` within the last `hours` hours? -/
def _has_recent_alert (alerts : List Alert) (source_url : String) (now : Int)
    (hours : Int) : Bool :=
  let cutoff_time := now - hours * 3600
  alerts.any (fun a => a.source_url == source_url && cutoff_time ≤ a.detected_at)

/-- The Alert row inserted by `analyze_page_change` (fields of the model;
`status='new'`, `source_type='page_change'`, `source_id=snapshot.id`). -/
def page_change_alert_of (next_id : Nat) (mu : MonitoredURL) (s : PageSnapshot)
    (result : AnalysisResult) (now : Int) : Alert :=
  { id := next_id
    competitor_id := some mu.competitor_id
    source_type := "page_change"
    source_id := s.id
    source_url := mu.url
    signal_type := result.signal_type
    risk_level := result.risk_level
    risk_score := result.risk_score
    confidence_score := result.confidence_score
    status := "new"
    assigned_to := none
    resolution_notes := none
    detected_at := now
    acknowledged_at := none
    resolved_at := none }

/-- A placeholder `monitored_urls` row; `analyze_page_change` only reaches it
if the snapshot's foreign key is dangling, which the schema prevents. -/
def default_mu : MonitoredURL :=
  { id := 0, competitor_id := 0, url := "", last_checked_at := none,
    last_content_hash := none, last_content := none,
    consecutive_errors := 0, last_error := none }

/-- `Analyzer.analyze_page_change` (analyzer.py lines 426-486): build the
content bundle, run the analysis, insert exactly one Alert for
`(page_change, snapshot.id)`, unconditionally.  The Teams notification and
insight generation that follow the commit are best-effort external side
effects with no effect on the modelled rows. -/
def analyze_page_change (oracle : PageSnapshot → AnalysisResult) (db : DB)
    (s : PageSnapshot) (now : Int) : DB × Alert :=
  let mu := (db.monitored_urls.find? (fun m => m.id == s.monitored_url_id)).getD default_mu
  let result := oracle s
  let alert := page_change_alert_of db.next_alert_id mu s result now
  ({ db with alerts := db.alerts ++ [alert], next_alert_id := db.next_alert_id + 1 },
   alert)

/-- The Alert row inserted by `analyze_news_item` (`source_type='news'`,
`source_id=news_item.id`, `status='new'`). -/
def news_alert_of (next_id : Nat) (item : NewsItem) (result : AnalysisResult)
    (now : Int) : Alert :=
  { id := next_id
    competitor_id := item.competitor_id
    source_type := "news"
    source_id := item.id
    source_url := item.url
    signal_type := result.signal_type
    risk_level := result.risk_level
    risk_score := result.risk_score
    confidence_score := result.confidence_score
    status := "new"
    assigned_to := none
    resolution_notes := none
    detected_at := now
    acknowledged_at := none
    resolved_at := none }

/-- Replace the `news_items` row(s) with the given id (the ORM writes back
the mutated object). -/
def updateNewsItem (rows : List NewsItem) (item : NewsItem) : List NewsItem :=
  rows.map (fun n => if n.id == item.id then item else n)

/-- `Analyzer.analyze_news_item` (analyzer.py lines 500-574). -/
def analyze_news_item (oracle : NewsItem → AnalysisResult)
    (min_confidence_threshold : Int) (db : DB) (item : NewsItem) (now : Int) :
    DB × Option Alert :=
  if _has_recent_alert db.alerts item.url now 6 then
    ({ db with news_items := updateNewsItem db.news_items { item with is_processed := true } },
     none)
  else
    let result := oracle item
    let is_relevant := min_confidence_threshold ≤ result.risk_score
    let item := { item with is_processed := true, is_relevant := some is_relevant }
    let db := { db with news_items := updateNewsItem db.news_items item }
    if !is_relevant then
      (db, none)
    else
      let alert := news_alert_of db.next_alert_id item result now
      ({ db with alerts := db.alerts ++ [alert], next_alert_id := db.next_alert_id + 1 },
       some alert)

/-- The WorkDiscovery anti-join for page changes (analyzer.py lines 585-590):
snapshots with `has_changes` and no Alert with
`(source_type='page_change', source_id=snapshot.id)`. -/
def discover_page_work (db : DB) : List PageSnapshot :=
  db.snapshots.filter (fun s =>
    s.has_changes &&
      !(db.alerts.any (fun a => a.source_type == "page_change" && a.source_id == s.id)))

/-- The WorkDiscovery query for news (analyzer.py line 601):
`NewsItem.query.filter_by(is_processed=False)`. -/
def discover_news_work (db : DB) : List NewsItem :=
  db.news_items.filter (fun n => !n.is_processed)

/-- The page-change loop of `process_pending_items` (lines 592-598),
returning `(db, page_changes_processed, alerts_created)`. -/
def run_page_loop (oracle : PageSnapshot → AnalysisResult) (now : Int) :
    DB → List PageSnapshot → DB × Nat × Nat
  | db, [] => (db, 0, 0)
  | db, s :: rest =>
    let step := analyze_page_change oracle db s now
    let r := run_page_loop oracle now step.1 rest
    (r.1, r.2.1 + 1, r.2.2 + 1)

/-- The news loop of `process_pending_items` (lines 601-610), returning
`(db, news_processed, alerts_created)`. -/
def run_news_loop (oracle : NewsItem → AnalysisResult) (thr : Int) (now : Int) :
    DB → List NewsItem → DB × Nat × Nat
  | db, [] => (db, 0, 0)
  | db, item :: rest =>
    let step := analyze_news_item oracle thr db item now
    let r := run_news_loop oracle thr now step.1 rest
    (r.1, r.2.1 + 1, r.2.2 + (if step.2.isSome then 1 else 0))

/-- The result counters of `process_pending_items`. -/
structure PendingResults where
  page_changes_processed : Nat
  news_processed : Nat
  alerts_created : Nat
  deriving DecidableEq, Repr

/-- `Analyzer.process_pending_items` (analyzer.py lines 576-612): run the
anti-join query, loop over its results, then run the unprocessed-news query
against the updated store and loop over those. -/
def process_pending_items (page_oracle : PageSnapshot → AnalysisResult)
    (news_oracle : NewsItem → AnalysisResult) (thr : Int) (db : DB) (now : Int) :
    DB × PendingResults :=
  let pr := run_page_loop page_oracle now db (discover_page_work db)
  let nr := run_news_loop news_oracle thr now pr.1 (discover_news_work pr.1)
  (nr.1, { page_changes_processed := pr.2.1, news_processed := nr.2.1,
           alerts_created := pr.2.2 + nr.2.2 })

/-! ## Alert lifecycle endpoints (routes.py lines 251-301)

`update_alert` receives a JSON body whose optional keys are modelled by
`UpdateData` (`none` = key absent).  `acknowledge_alert` takes no body;
`resolve_alert` takes an optional `notes` key (`data.get('notes', '')`).
`now` is `datetime.utcnow()`. -/

/-- The request body of `PATCH /alerts/<id>`. -/
structure UpdateData where
  status : Option String
  assigned_to : Option String
  resolution_notes : Option String
  deriving DecidableEq, Repr

/-- `update_alert` (routes.py lines 251-274): apply any requested status
unconditionally; set `acknowledged_at` only when the new status is
`acknowledged` and the old one was `new`; set `resolved_at` whenever the new
status is `resolved`. -/
def update_alert (alert : Alert) (data : UpdateData) (now : Int) : Alert :=
  let alert :=
    match data.status with
    | none => alert
    | some s =>
      let old_status := alert.status
      let alert := { alert with status := s }
      if s = "acknowledged" && old_status = "new" then
        { alert with acknowledged_at := some now }
      else if s = "resolved" then
        { alert with resolved_at := some now }
      else alert
  let alert :=
    match data.assigned_to with
    | none => alert
    | some v => { alert with assigned_to := some v }
  match data.resolution_notes with
  | none => alert
  | some v => { alert with resolution_notes := some v }

/-- `acknowledge_alert` (routes.py lines 277-287): only an Alert in status
`new` is moved to `acknowledged` (stamping `acknowledged_at`); anything else
is left untouched. -/
def acknowledge_alert (alert : Alert) (now : Int) : Alert :=
  if alert.status = "new" then
    { alert with status := "acknowledged", acknowledged_at := some now }
  else alert

/-- `resolve_alert` (routes.py lines 290-301): unconditionally set status
`resolved`, stamp `resolved_at`, and store `data.get('notes', '')`. -/
def resolve_alert (alert : Alert) (notes : Option String) (now : Int) : Alert :=
  { alert with
    status := "resolved"
    resolved_at := some now
    resolution_notes := some (notes.getD "") }

/-! ## Claim theorems -/

/-- A concrete dismissed Alert used in lifecycle counterexamples. -/
def c4_alert : Alert :=
  { id := 1, competitor_id := some 1, source_type := "manual", source_id := 0,
    source_url := "https://example.com", signal_type := "other",
    risk_level := "low", risk_score := 10, confidence_score := 50,
    status := "dismissed", assigned_to := none, resolution_notes := none,
    detected_at := 0, acknowledged_at := none, resolved_at := none }

/-- C4 (counterexample): `resolved` and `dismissed` are not terminal under
the implemented lifecycle operations: `resolve_alert` moves a dismissed Alert
to `resolved`, and `update_alert` moves a resolved Alert back to `new`. -/
theorem C4_counterexample :
    c4_alert.status = "dismissed" ∧
    (resolve_alert c4_alert none 5).status = "resolved" ∧
    ({ c4_alert with status := "resolved" } : Alert).status = "resolved" ∧
    (update_alert { c4_alert with status := "resolved" }
      { status := some "new", assigned_to := none, resolution_notes := none }
      5).status = "new" := by
  decide

/-- C4 (amended): among the lifecycle operations only `acknowledge` treats
`resolved` and `dismissed` as terminal — acknowledging such an Alert leaves
it completely unchanged; `update_alert` and `resolve_alert` can still change
its status. -/
theorem C4_terminal_only_for_acknowledge (a : Alert) (now : Int)
    (h : a.status = "resolved" ∨ a.status = "dismissed") :
    acknowledge_alert a now = a := by
  rcases h with h | h <;> simp [acknowledge_alert, h]

/-- Witness for `C4_terminal_only_for_acknowledge` at the concrete dismissed
Alert. -/
theorem C4_terminal_only_for_acknowledge_witness :
    (c4_alert.status = "resolved" ∨ c4_alert.status = "dismissed") ∧
    acknowledge_alert c4_alert 7 = c4_alert :=
  ⟨Or.inr (by decide),
   C4_terminal_only_for_acknowledge c4_alert 7 (Or.inr (by decide))⟩

/-- C8: `acknowledged_at` is only written on the `new → acknowledged`
transition: acknowledging a non-`new` Alert changes nothing (so a second
acknowledge is a no-op), `update_alert` leaves `acknowledged_at` untouched
unless the requested status is `acknowledged` and the old status was `new`,
and `resolve_alert` never touches `acknowledged_at`. -/
theorem C8_acknowledged_at_guard (a : Alert) (data : UpdateData)
    (notes : Option String) (now now2 now3 : Int) :
    (a.status ≠ "new" → acknowledge_alert a now = a) ∧
    (¬ (data.status = some "acknowledged" ∧ a.status = "new") →
      (update_alert a data now2).acknowledged_at = a.acknowledged_at) ∧
    (resolve_alert a notes now3).acknowledged_at = a.acknowledged_at := by
  refine ⟨fun h => by simp [acknowledge_alert, h], fun h => ?_, by simp [resolve_alert]⟩
  match hd : data.status with
  | none =>
    simp [update_alert, hd]
    cases data.assigned_to <;> cases data.resolution_notes <;> simp
  | some s =>
    have hns : ¬ (s = "acknowledged" ∧ a.status = "new") := by
      intro hc; exact h ⟨by rw [hd, hc.1], hc.2⟩
    by_cases h1 : s = "acknowledged"
    · have h2 : a.status ≠ "new" := fun h2 => hns ⟨h1, h2⟩
      simp [update_alert, hd, h1, h2,
        show ("acknowledged" : String) ≠ "resolved" by decide]
      cases data.assigned_to <;> cases data.resolution_notes <;> simp
    · simp [update_alert, hd, h1]
      by_cases h3 : s = "resolved" <;> simp [h3] <;>
        cases data.assigned_to <;> cases data.resolution_notes <;> simp

/-- Witness for `C8_acknowledged_at_guard`: an already-acknowledged Alert. -/
theorem C8_acknowledged_at_guard_witness :
    ({ c4_alert with status := "acknowledged" } : Alert).status ≠ "new" ∧
    acknowledge_alert { c4_alert with status := "acknowledged" } 9 =
      { c4_alert with status := "acknowledged" } ∧
    ¬ ((some "in_progress" : Option String) = some "acknowledged" ∧
        ({ c4_alert with status := "acknowledged" } : Alert).status = "new") ∧
    (update_alert { c4_alert with status := "acknowledged" }
        { status := some "in_progress", assigned_to := none, resolution_notes := none }
        11).acknowledged_at =
      ({ c4_alert with status := "acknowledged" } : Alert).acknowledged_at ∧
    (resolve_alert { c4_alert with status := "acknowledged" } none 13).acknowledged_at =
      ({ c4_alert with status := "acknowledged" } : Alert).acknowledged_at := by
  have h := C8_acknowledged_at_guard { c4_alert with status := "acknowledged" }
    { status := some "in_progress", assigned_to := none, resolution_notes := none }
    none 9 11 13
  exact ⟨by decide, h.1 (by decide), by decide, h.2.1 (by decide), h.2.2⟩

/-- C7: for a source whose `last_content_hash` is null (never successfully
checked), the snapshot created by a successful check has
`has_changes = false` and a null `diff_summary`, regardless of the fetched
content or the extraction behaviour. -/
theorem C7_first_snapshot_unchanged (extract : String → String)
    (m : MonitoredURL) (html : String) (now : Int) (fresh_id : Nat)
    (h : m.last_content_hash = none) :
    (check_url extract m (.ok html) now fresh_id).created.map
        PageSnapshot.has_changes = [false] ∧
    (check_url extract m (.ok html) now fresh_id).created.map
        PageSnapshot.diff_summary = [none] := by
  simp [check_url, h, truthyStr]

/-- Witness for `C7_first_snapshot_unchanged` on a concrete fresh source. -/
theorem C7_first_snapshot_unchanged_witness :
    default_mu.last_content_hash = none ∧
    ((check_url (fun _ => "some text") default_mu (.ok "<p>some text</p>") 100 1).created.map
        PageSnapshot.has_changes = [false] ∧
     (check_url (fun _ => "some text") default_mu (.ok "<p>some text</p>") 100 1).created.map
        PageSnapshot.diff_summary = [none]) :=
  ⟨rfl, C7_first_snapshot_unchanged (fun _ => "some text") default_mu
    "<p>some text</p>" 100 1 rfl⟩

/-- C9: on fetch failure `check_url` increments `consecutive_errors` by
exactly one, records the error message and the check time, inserts no
snapshot, and leaves `last_content_hash`/`last_content` unchanged; on fetch
success it resets `consecutive_errors` to 0 and `last_error` to null and
inserts exactly one snapshot. -/
theorem C9_error_bookkeeping (extract : String → String) (m : MonitoredURL)
    (e html : String) (now : Int) (fresh_id : Nat) :
    ((check_url extract m (.error e) now fresh_id).url_state.consecutive_errors =
        m.consecutive_errors + 1 ∧
      (check_url extract m (.error e) now fresh_id).url_state.last_error = some e ∧
      (check_url extract m (.error e) now fresh_id).url_state.last_checked_at = some now ∧
      (check_url extract m (.error e) now fresh_id).created = [] ∧
      (check_url extract m (.error e) now fresh_id).url_state.last_content_hash =
        m.last_content_hash ∧
      (check_url extract m (.error e) now fresh_id).url_state.last_content =
        m.last_content) ∧
    ((check_url extract m (.ok html) now fresh_id).url_state.consecutive_errors = 0 ∧
      (check_url extract m (.ok html) now fresh_id).url_state.last_error = none ∧
      (check_url extract m (.ok html) now fresh_id).url_state.last_checked_at = some now ∧
      (check_url extract m (.ok html) now fresh_id).created.length = 1) := by
  constructor <;> simp [check_url]

/-- C10: when extraction yields the empty string on a successful fetch,
`check_url` proceeds exactly as with ordinary content: it still inserts one
snapshot, whose `content_hash` is the hash of the empty string and whose
`extracted_text` is empty; `has_changes` is true whenever the stored
`last_content_hash` is present (truthy) and differs from that hash; and the
source's `last_content_hash`/`last_content` are overwritten with the
empty-content values.  Extraction failure never suppresses change detection
for the cycle. -/
theorem C10_empty_extraction_still_detects (extract : String → String)
    (m : MonitoredURL) (html : String) (now : Int) (fresh_id : Nat)
    (hex : extract html = "") :
    (check_url extract m (.ok html) now fresh_id).created.map
        PageSnapshot.content_hash = [compute_hash ""] ∧
    (check_url extract m (.ok html) now fresh_id).created.map
        PageSnapshot.extracted_text = [""] ∧
    (∀ hprev, m.last_content_hash = some hprev → hprev ≠ "" →
      hprev ≠ compute_hash "" →
      (check_url extract m (.ok html) now fresh_id).created.map
        PageSnapshot.has_changes = [true]) ∧
    (check_url extract m (.ok html) now fresh_id).url_state.last_content_hash =
      some (compute_hash "") ∧
    (check_url extract m (.ok html) now fresh_id).url_state.last_content =
      some "" := by
  refine ⟨?_, ?_, ?_, ?_, ?_⟩
  · simp [check_url, hex, pyTake]
  · simp [check_url, hex, pyTake]
  · intro hprev hsome hne hdiff
    simp [check_url, hex, hsome, truthyStr, hne, Ne.symm hdiff, pyTake]
  · simp [check_url, hex, pyTake]
  · simp [check_url, hex, pyTake]

/-- A source with a previous content hash, for the C10 witness. -/
def c10_mu : MonitoredURL :=
  { default_mu with
    id := 3
    url := "https://example.com/pricing"
    last_content_hash := some "x"
    last_content := some "old content" }

/-- Witness for `C10_empty_extraction_still_detects`: a previously-checked
source whose extraction now fails (returns the empty string) still gets a
changed snapshot. -/
theorem C10_empty_extraction_still_detects_witness :
    ((fun _ : String => "") "<broken html>" = "") ∧
    c10_mu.last_content_hash = some "x" ∧
    (check_url (fun _ => "") c10_mu (.ok "<broken html>") 50 2).created.map
        PageSnapshot.has_changes = [true] ∧
    (check_url (fun _ => "") c10_mu (.ok "<broken html>") 50 2).created.map
        PageSnapshot.content_hash = [compute_hash ""] ∧
    (check_url (fun _ => "") c10_mu (.ok "<broken html>") 50 2).url_state.last_content =
      some "" := by
  have h := C10_empty_extraction_still_detects (fun _ => "") c10_mu
    "<broken html>" 50 2 rfl
  exact ⟨rfl, rfl, h.2.2.1 "x" rfl (by decide) (by decide), h.1, h.2.2.2.2⟩

/-- C6: `analyze_content` is total over the LLM boundary (it returns for
every outcome of the external call, modelled by the totality of this Lean
function): a failing call yields the degraded result with
`risk_level = "medium"`, `confidence_score = 0` and the manual-review action;
and every returned result has a `signal_type` in the enumerated signal set
(invalid values coerced to `"other"`), a `risk_level` in the enumerated risk
set (invalid values coerced to `"medium"`), and `risk_score` and
`confidence_score` clamped into `[0, 100]`. -/
theorem C6_analyze_content_boundary (playbook_actions_of : String → List ActionItem)
    (response : Except String LLMResponse) :
    (∀ e, response = .error e →
      (analyze_content playbook_actions_of response).risk_level = "medium" ∧
      (analyze_content playbook_actions_of response).confidence_score = 0 ∧
      manual_review_action ∈
        (analyze_content playbook_actions_of response).recommended_actions) ∧
    signal_type_values.contains
      (analyze_content playbook_actions_of response).signal_type = true ∧
    risk_level_values.contains
      (analyze_content playbook_actions_of response).risk_level = true ∧
    0 ≤ (analyze_content playbook_actions_of response).risk_score ∧
    (analyze_content playbook_actions_of response).risk_score ≤ 100 ∧
    0 ≤ (analyze_content playbook_actions_of response).confidence_score ∧
    (analyze_content playbook_actions_of response).confidence_score ≤ 100 := by
  match response with
  | .error e =>
    refine ⟨fun _ _ => ⟨rfl, rfl, ?_⟩, ?_, ?_, ?_, ?_, ?_, ?_⟩
    · simp [analyze_content, manual_review_action]
    all_goals simp only [analyze_content]; decide
  | .ok j =>
    refine ⟨?_, ?_, ?_, ?_, ?_, ?_, ?_⟩
    case _ => intro e he; exact Except.noConfusion he
    · by_cases h : (j.signal_type.getD "other") ∈ signal_type_values
      · simp [analyze_content, h]
      · simp [analyze_content, h]; decide
    · by_cases h : (j.risk_level.getD "medium") ∈ risk_level_values
      · simp [analyze_content, h]
      · simp [analyze_content, h]; decide
    · simp [analyze_content]
    · simp only [analyze_content]
      exact min_le_left 100 _
    · simp [analyze_content]
    · simp only [analyze_content]
      exact min_le_left 100 _

/-- Witness for `C6_analyze_content_boundary`: a failed LLM call. -/
theorem C6_analyze_content_boundary_witness :
    ((Except.error "API timeout" : Except String LLMResponse) =
      Except.error "API timeout") ∧
    (analyze_content (fun _ => []) (.error "API timeout")).risk_level = "medium" ∧
    (analyze_content (fun _ => []) (.error "API timeout")).confidence_score = 0 ∧
    manual_review_action ∈
      (analyze_content (fun _ => []) (.error "API timeout")).recommended_actions := by
  have h := C6_analyze_content_boundary (fun _ => []) (.error "API timeout")
  exact ⟨rfl, (h.1 "API timeout" rfl).1, (h.1 "API timeout" rfl).2.1,
    (h.1 "API timeout" rfl).2.2⟩

/-- After `updateNewsItem rows item`, every row carrying the item's id
satisfies any predicate the written-back item satisfies. -/
theorem updateNewsItem_all (rows : List NewsItem) (item : NewsItem)
    (p : NewsItem → Bool) (hp : p item = true) :
    (updateNewsItem rows item).all (fun n => n.id != item.id || p n) = true := by
  simp only [updateNewsItem, List.all_map, List.all_eq_true]
  intro n _
  by_cases h : n.id = item.id <;> simp [h, hp]

/-- C3: for every NewsCandidate handed to `analyze_news_item`:
if an Alert with the same `source_url` was detected within the last 6 hours,
the item is marked processed, no Alert is created and the Alert table is
untouched; otherwise the item is marked processed with
`is_relevant = (risk_score ≥ threshold)`, and an Alert with
`source_type = "news"` and `source_id = item.id` is appended if and only if
it is relevant. -/
theorem C3_analyze_news_item (oracle : NewsItem → AnalysisResult) (thr : Int)
    (db : DB) (item : NewsItem) (now : Int) :
    ((analyze_news_item oracle thr db item now).1.news_items.all
        (fun n => n.id != item.id || n.is_processed) = true) ∧
    (_has_recent_alert db.alerts item.url now 6 = true →
      (analyze_news_item oracle thr db item now).1.alerts = db.alerts ∧
      (analyze_news_item oracle thr db item now).2 = none) ∧
    (_has_recent_alert db.alerts item.url now 6 = false →
      ((analyze_news_item oracle thr db item now).1.news_items.all
          (fun n => n.id != item.id ||
            n.is_relevant == some (decide (thr ≤ (oracle item).risk_score))) = true) ∧
      ((analyze_news_item oracle thr db item now).2.isSome =
        decide (thr ≤ (oracle item).risk_score)) ∧
      (∀ a, (analyze_news_item oracle thr db item now).2 = some a →
        a.source_type = "news" ∧ a.source_id = item.id ∧ a.status = "new" ∧
        (analyze_news_item oracle thr db item now).1.alerts = db.alerts ++ [a]) ∧
      ((analyze_news_item oracle thr db item now).2 = none →
        (analyze_news_item oracle thr db item now).1.alerts = db.alerts)) := by
  by_cases hg : _has_recent_alert db.alerts item.url now 6
  · have hstep : analyze_news_item oracle thr db item now =
        ({ db with news_items :=
            updateNewsItem db.news_items { item with is_processed := true } }, none) := by
      simp [analyze_news_item, hg]
    refine ⟨?_, fun _ => ⟨by rw [hstep], by rw [hstep]⟩,
      fun hf => absurd hg (by simp [hf])⟩
    rw [hstep]
    exact updateNewsItem_all db.news_items { item with is_processed := true }
      (fun n => n.is_processed) rfl
  · by_cases hr : thr ≤ (oracle item).risk_score
    · have hstep : analyze_news_item oracle thr db item now =
          ({ db with
              news_items := updateNewsItem db.news_items
                { item with is_processed := true, is_relevant := some true }
              alerts := db.alerts ++ [news_alert_of db.next_alert_id
                { item with is_processed := true, is_relevant := some true }
                (oracle item) now]
              next_alert_id := db.next_alert_id + 1 },
           some (news_alert_of db.next_alert_id
            { item with is_processed := true, is_relevant := some true }
            (oracle item) now)) := by
        simp [analyze_news_item, hg, hr]
      refine ⟨?_, fun ht => absurd ht (by simp [hg]), fun _ => ⟨?_, ?_, ?_, ?_⟩⟩
      · rw [hstep]
        exact updateNewsItem_all db.news_items
          { item with is_processed := true, is_relevant := some true }
          (fun n => n.is_processed) rfl
      · rw [hstep]
        simpa using updateNewsItem_all db.news_items
          { item with is_processed := true, is_relevant := some true }
          (fun n => n.is_relevant == some (decide (thr ≤ (oracle item).risk_score))) (by simp [hr])
      · rw [hstep]; simp [hr]
      · intro a ha
        rw [hstep] at ha ⊢
        cases ha
        exact ⟨rfl, rfl, rfl, rfl⟩
      · intro ha
        rw [hstep] at ha
        cases ha
    · have hstep : analyze_news_item oracle thr db item now =
          ({ db with news_items := updateNewsItem db.news_items { item with is_processed := true, is_relevant := some false } }, none) := by
        simp [analyze_news_item, hg, hr]
      refine ⟨?_, fun ht => absurd ht (by simp [hg]), fun _ => ⟨?_, ?_, ?_, ?_⟩⟩
      · rw [hstep]
        exact updateNewsItem_all db.news_items
          { item with is_processed := true, is_relevant := some false }
          (fun n => n.is_processed) rfl
      · rw [hstep]
        simpa using updateNewsItem_all db.news_items
          { item with is_processed := true, is_relevant := some false }
          (fun n => n.is_relevant == some (decide (thr ≤ (oracle item).risk_score))) (by simp [hr])
      · rw [hstep]; simp [hr]
      · intro a ha
        rw [hstep] at ha
        cases ha
      · intro _
        rw [hstep]

/-- A concrete unprocessed news candidate. -/
def c3_item : NewsItem :=
  { id := 7, competitor_id := some 1, title := "Competitor launches product",
    url := "https://news.example/a", is_processed := false, is_relevant := none }

/-- A concrete Alert on the same URL, detected 100 seconds before `now`. -/
def c3_prior_alert : Alert :=
  { id := 1, competitor_id := some 1, source_type := "news", source_id := 3,
    source_url := "https://news.example/a", signal_type := "product_launch",
    risk_level := "high", risk_score := 70, confidence_score := 80,
    status := "new", assigned_to := none, resolution_notes := none,
    detected_at := 9900, acknowledged_at := none, resolved_at := none }

/-- Store with a recent Alert on the candidate's URL. -/
def c3_db_dedup : DB :=
  { monitored_urls := [], snapshots := [], news_items := [c3_item],
    alerts := [c3_prior_alert], next_alert_id := 2 }

/-- Store with no alerts. -/
def c3_db_fresh : DB :=
  { monitored_urls := [], snapshots := [], news_items := [c3_item],
    alerts := [], next_alert_id := 1 }

/-- A concrete analysis outcome (risk score 80) fed through the
`analyze_content` boundary. -/
def c3_oracle : NewsItem → AnalysisResult := fun _ =>
  analyze_content (fun _ => [])
    (.ok { summary := some "s", signal_type := some "product_launch",
           risk_level := some "high", risk_score := some 80,
           confidence_score := some 90, relevance_to_fluke := some "r",
           assumptions := some [], recommended_playbook := some "default",
           immediate_actions := some [] })

/-- Witness for `C3_analyze_news_item`: the dedup branch suppresses the
Alert, the fresh branch creates one (risk 80 ≥ threshold 40) and marks the
candidate processed. -/
theorem C3_analyze_news_item_witness :
    _has_recent_alert c3_db_dedup.alerts c3_item.url 10000 6 = true ∧
    (analyze_news_item c3_oracle 40 c3_db_dedup c3_item 10000).1.alerts =
      c3_db_dedup.alerts ∧
    (analyze_news_item c3_oracle 40 c3_db_dedup c3_item 10000).2 = none ∧
    _has_recent_alert c3_db_fresh.alerts c3_item.url 10000 6 = false ∧
    (analyze_news_item c3_oracle 40 c3_db_fresh c3_item 10000).2.isSome =
      decide ((40 : Int) ≤ (c3_oracle c3_item).risk_score) ∧
    ((analyze_news_item c3_oracle 40 c3_db_fresh c3_item 10000).1.news_items.all
        (fun n => n.id != c3_item.id || n.is_processed) = true) := by
  have h1 := C3_analyze_news_item c3_oracle 40 c3_db_dedup c3_item 10000
  have h2 := C3_analyze_news_item c3_oracle 40 c3_db_fresh c3_item 10000
  exact ⟨by decide, (h1.2.1 (by decide)).1, (h1.2.1 (by decide)).2, by decide,
    (h2.2.2 (by decide)).2.1, h2.1⟩

/-- `line[:100]` never exceeds 100 characters. -/
theorem pyTake_length_le (n : Nat) (s : String) : (pyTake n s).length ≤ n :=
  List.length_take_le n s.data

/-- Each listed summary line (4-character marker plus the line truncated to
100 characters) is at most 104 characters long. -/
theorem rendered_length_le (pre : String) (hpre : pre.length = 4)
    (lines : List String) :
    (lines.map (fun line => pre ++ pyTake 100 line)).all
      (fun r => r.length ≤ 104) = true := by
  refine List.all_eq_true.mpr ?_
  intro r hr
  obtain ⟨l, _, rfl⟩ := List.mem_map.mp hr
  refine decide_eq_true ?_
  have h1 := pyTake_length_le 100 l
  have h2 : (pre ++ pyTake 100 l).length = pre.length + (pyTake 100 l).length :=
    String.length_append pre (pyTake 100 l)
  omega

/-- C5: the change summary enumerates added and removed lines separately
(blank lines excluded), lists at most 10 lines per direction — each rendered
as `"  + "`/`"  - "` plus the line truncated to 100 characters, so at most
104 characters — and when more than 10 lines exist in a direction a
`... and N more lines` part states how many were omitted.  For old lines
`["a","b","c"]` and new lines `["a","c","d"]` it reports exactly one removed
line (`b`) and one added line (`d`). -/
theorem C5_summarize_changes
    (old_content new_content : String) :
    ((nonblank (added_lines_of (compute_diff old_content new_content))).take 10).length ≤ 10 ∧
    ((nonblank (removed_lines_of (compute_diff old_content new_content))).take 10).length ≤ 10 ∧
    (nonblank (added_lines_of (compute_diff old_content new_content))).all
      (fun l => l ≠ "") = true ∧
    (nonblank (removed_lines_of (compute_diff old_content new_content))).all
      (fun l => l ≠ "") = true ∧
    (((nonblank (added_lines_of (compute_diff old_content new_content))).take 10).map
      (fun line => "  + " ++ pyTake 100 line)).all (fun r => r.length ≤ 104) = true ∧
    (((nonblank (removed_lines_of (compute_diff old_content new_content))).take 10).map
      (fun line => "  - " ++ pyTake 100 line)).all (fun r => r.length ≤ 104) = true ∧
    (nonblank (added_lines_of (compute_diff old_content new_content)) ≠ [] →
      ("Added (" ++ toString (nonblank (added_lines_of (compute_diff old_content new_content))).length ++
          " lines):\n" ++ pyJoin "\n"
          (((nonblank (added_lines_of (compute_diff old_content new_content))).take 10).map
            (fun line => "  + " ++ pyTake 100 line))) ∈
        summary_parts (compute_diff old_content new_content)) ∧
    (nonblank (removed_lines_of (compute_diff old_content new_content)) ≠ [] →
      ("Removed (" ++ toString (nonblank (removed_lines_of (compute_diff old_content new_content))).length ++
          " lines):\n" ++ pyJoin "\n"
          (((nonblank (removed_lines_of (compute_diff old_content new_content))).take 10).map
            (fun line => "  - " ++ pyTake 100 line))) ∈
        summary_parts (compute_diff old_content new_content)) ∧
    (10 < (nonblank (added_lines_of (compute_diff old_content new_content))).length →
      ("  ... and " ++
          toString ((nonblank (added_lines_of (compute_diff old_content new_content))).length - 10) ++
          " more lines") ∈ summary_parts (compute_diff old_content new_content)) ∧
    (10 < (nonblank (removed_lines_of (compute_diff old_content new_content))).length →
      ("  ... and " ++
          toString ((nonblank (removed_lines_of (compute_diff old_content new_content))).length - 10) ++
          " more lines") ∈ summary_parts (compute_diff old_content new_content)) ∧
    nonblank (removed_lines_of (compute_diff "a\nb\nc" "a\nc\nd")) = ["b"] ∧
    nonblank (added_lines_of (compute_diff "a\nb\nc" "a\nc\nd")) = ["d"] ∧
    summarize_changes (compute_diff "a\nb\nc" "a\nc\nd") =
      "Added (1 lines):\n  + d\n\nRemoved (1 lines):\n  - b" := by
  refine ⟨List.length_take_le 10 _, List.length_take_le 10 _, ?_, ?_, ?_, ?_,
    ?_, ?_, ?_, ?_, by decide, by decide, by decide⟩
  · simp [nonblank, List.all_eq_true, List.mem_filter]
  · simp [nonblank, List.all_eq_true, List.mem_filter]
  · exact rendered_length_le "  + " rfl _
  · exact rendered_length_le "  - " rfl _
  · intro h
    simp [summary_parts, h]
  · intro h
    simp [summary_parts, h]
  · intro h
    have hne : nonblank (added_lines_of (compute_diff old_content new_content)) ≠ [] := by
      intro he; rw [he] at h; simp at h
    simp [summary_parts, h, hne]
  · intro h
    have hne : nonblank (removed_lines_of (compute_diff old_content new_content)) ≠ [] := by
      intro he; rw [he] at h; simp at h
    simp [summary_parts, h, hne]

/-- Old text for the C5 witness: twelve distinct lines. -/
def c5_old : String :=
  "r1\nr2\nr3\nr4\nr5\nr6\nr7\nr8\nr9\nr10\nr11\nr12"

/-- New text for the C5 witness: twelve entirely different lines. -/
def c5_new : String :=
  "a1\na2\na3\na4\na5\na6\na7\na8\na9\na10\na11\na12"

/-- Witness for `C5_summarize_changes`: a 12-line replacement produces both
direction sections and both `... and 2 more lines` omission suffixes. -/
theorem C5_summarize_changes_witness :
    nonblank (added_lines_of (compute_diff c5_old c5_new)) ≠ [] ∧
    nonblank (removed_lines_of (compute_diff c5_old c5_new)) ≠ [] ∧
    10 < (nonblank (added_lines_of (compute_diff c5_old c5_new))).length ∧
    10 < (nonblank (removed_lines_of (compute_diff c5_old c5_new))).length ∧
    ("Added (" ++ toString (nonblank (added_lines_of (compute_diff c5_old c5_new))).length ++
        " lines):\n" ++ pyJoin "\n"
        (((nonblank (added_lines_of (compute_diff c5_old c5_new))).take 10).map
          (fun line => "  + " ++ pyTake 100 line))) ∈
      summary_parts (compute_diff c5_old c5_new) ∧
    ("  ... and " ++
        toString ((nonblank (added_lines_of (compute_diff c5_old c5_new))).length - 10) ++
        " more lines") ∈ summary_parts (compute_diff c5_old c5_new) ∧
    ("  ... and " ++
        toString ((nonblank (removed_lines_of (compute_diff c5_old c5_new))).length - 10) ++
        " more lines") ∈ summary_parts (compute_diff c5_old c5_new) := by
  obtain ⟨_, _, _, _, _, _, h7, h8, h9, h10, _, _, _⟩ :=
    C5_summarize_changes c5_old c5_new
  exact ⟨by decide, by decide, by decide, by decide, h7 (by decide),
    h9 (by decide), h10 (by decide)⟩

/-! ## Idempotence of `process_pending_items` (claim C2) -/

/-- `analyze_page_change` only appends to the Alert table. -/
theorem analyze_page_change_alerts (o : PageSnapshot → AnalysisResult) (db : DB)
    (s : PageSnapshot) (now : Int) :
    (analyze_page_change o db s now).1.alerts =
      db.alerts ++
        [page_change_alert_of db.next_alert_id
          ((db.monitored_urls.find? (fun m => m.id == s.monitored_url_id)).getD default_mu)
          s (o s) now] := rfl

/-- `analyze_page_change` leaves snapshots and news items untouched. -/
theorem analyze_page_change_rest (o : PageSnapshot → AnalysisResult) (db : DB)
    (s : PageSnapshot) (now : Int) :
    (analyze_page_change o db s now).1.snapshots = db.snapshots ∧
    (analyze_page_change o db s now).1.news_items = db.news_items := ⟨rfl, rfl⟩

/-- `analyze_news_item` only appends to the Alert table. -/
theorem analyze_news_item_alerts_mono (o : NewsItem → AnalysisResult) (thr : Int)
    (db : DB) (item : NewsItem) (now : Int) :
    ∃ l, (analyze_news_item o thr db item now).1.alerts = db.alerts ++ l := by
  simp only [analyze_news_item]
  split
  · exact ⟨[], (List.append_nil db.alerts).symm⟩
  · split
    · exact ⟨[], (List.append_nil db.alerts).symm⟩
    · exact ⟨_, rfl⟩

/-- `analyze_news_item` leaves snapshots untouched. -/
theorem analyze_news_item_snapshots (o : NewsItem → AnalysisResult) (thr : Int)
    (db : DB) (item : NewsItem) (now : Int) :
    (analyze_news_item o thr db item now).1.snapshots = db.snapshots := by
  by_cases hg : _has_recent_alert db.alerts item.url now 6 <;>
    by_cases hr : thr ≤ (o item).risk_score <;>
    simp [analyze_news_item, hg, hr]

/-- `analyze_news_item` rewrites the news rows through `updateNewsItem` with
a processed item carrying the same id. -/
theorem analyze_news_item_news_items (o : NewsItem → AnalysisResult) (thr : Int)
    (db : DB) (item : NewsItem) (now : Int) :
    ∃ item', item'.id = item.id ∧ item'.is_processed = true ∧
      (analyze_news_item o thr db item now).1.news_items =
        updateNewsItem db.news_items item' := by
  simp only [analyze_news_item]
  split
  · exact ⟨{ item with is_processed := true }, rfl, rfl, rfl⟩
  · split
    · exact ⟨{ item with is_processed := true, is_relevant := some (decide (thr ≤ (o item).risk_score)) }, rfl, rfl, rfl⟩
    · exact ⟨{ item with is_processed := true, is_relevant := some (decide (thr ≤ (o item).risk_score)) }, rfl, rfl, rfl⟩

/-- The page loop leaves snapshots and news items untouched. -/
theorem run_page_loop_rest (o : PageSnapshot → AnalysisResult) (now : Int)
    (work : List PageSnapshot) :
    ∀ db : DB, (run_page_loop o now db work).1.snapshots = db.snapshots ∧
      (run_page_loop o now db work).1.news_items = db.news_items := by
  induction work with
  | nil => exact fun db => ⟨rfl, rfl⟩
  | cons s rest ih =>
    intro db
    exact ⟨(ih (analyze_page_change o db s now).1).1,
      (ih (analyze_page_change o db s now).1).2⟩

/-- The news loop leaves snapshots untouched. -/
theorem run_news_loop_snapshots (o : NewsItem → AnalysisResult) (thr now : Int)
    (work : List NewsItem) :
    ∀ db : DB, (run_news_loop o thr now db work).1.snapshots = db.snapshots := by
  induction work with
  | nil => exact fun _ => rfl
  | cons item rest ih =>
    intro db
    calc (run_news_loop o thr now (analyze_news_item o thr db item now).1 rest).1.snapshots
        = (analyze_news_item o thr db item now).1.snapshots :=
          ih (analyze_news_item o thr db item now).1
      _ = db.snapshots := analyze_news_item_snapshots o thr db item now

/-- Alerts already present survive the page loop. -/
theorem run_page_loop_alerts_mono (o : PageSnapshot → AnalysisResult) (now : Int)
    (work : List PageSnapshot) :
    ∀ db : DB, ∀ a ∈ db.alerts, a ∈ (run_page_loop o now db work).1.alerts := by
  induction work with
  | nil => exact fun _ _ ha => ha
  | cons s rest ih =>
    intro db a ha
    refine ih (analyze_page_change o db s now).1 a ?_
    rw [analyze_page_change_alerts]
    exact List.mem_append_left _ ha

/-- Alerts already present survive the news loop. -/
theorem run_news_loop_alerts_mono (o : NewsItem → AnalysisResult) (thr now : Int)
    (work : List NewsItem) :
    ∀ db : DB, ∀ a ∈ db.alerts, a ∈ (run_news_loop o thr now db work).1.alerts := by
  induction work with
  | nil => exact fun _ _ ha => ha
  | cons item rest ih =>
    intro db a ha
    refine ih (analyze_news_item o thr db item now).1 a ?_
    obtain ⟨l, hl⟩ := analyze_news_item_alerts_mono o thr db item now
    rw [hl]
    exact List.mem_append_left _ ha

/-- The page loop creates an Alert keyed `(page_change, s.id)` for every work
item. -/
theorem run_page_loop_covers (o : PageSnapshot → AnalysisResult) (now : Int)
    (work : List PageSnapshot) :
    ∀ db : DB, ∀ s ∈ work, ∃ a ∈ (run_page_loop o now db work).1.alerts,
      a.source_type = "page_change" ∧ a.source_id = s.id := by
  induction work with
  | nil => intro db s hs; cases hs
  | cons w rest ih =>
    intro db s hs
    rcases List.mem_cons.mp hs with h | h
    · subst h
      refine ⟨page_change_alert_of db.next_alert_id
        ((db.monitored_urls.find? (fun m => m.id == s.monitored_url_id)).getD default_mu)
        s (o s) now, ?_, rfl, rfl⟩
      refine run_page_loop_alerts_mono o now rest (analyze_page_change o db s now).1 _ ?_
      rw [analyze_page_change_alerts]
      exact List.mem_append_right _ (List.mem_singleton.mpr rfl)
    · exact ih (analyze_page_change o db w now).1 s h

/-- Membership after `updateNewsItem`: a row is the written-back item or an
untouched row with a different id. -/
theorem mem_updateNewsItem (rows : List NewsItem) (item : NewsItem) :
    ∀ n ∈ updateNewsItem rows item, n = item ∨ (n ∈ rows ∧ n.id ≠ item.id) := by
  intro n hn
  simp only [updateNewsItem, List.mem_map] at hn
  obtain ⟨n0, hn0, rfl⟩ := hn
  rcases eq_or_ne n0.id item.id with h | h
  · left; simp [h]
  · right
    refine ⟨?_, ?_⟩ <;> simp [h, hn0]

/-- If every unprocessed row has a matching work item, the news loop leaves
every row processed. -/
theorem run_news_loop_processes (o : NewsItem → AnalysisResult) (thr now : Int)
    (work : List NewsItem) :
    ∀ db : DB,
      (∀ n ∈ db.news_items, n.is_processed = false → ∃ w ∈ work, w.id = n.id) →
      ∀ n ∈ (run_news_loop o thr now db work).1.news_items,
        n.is_processed = true := by
  induction work with
  | nil =>
    intro db hcov n hn
    by_cases hp : n.is_processed = true
    · exact hp
    · obtain ⟨w, hw, _⟩ := hcov n hn (by simpa using hp)
      cases hw
  | cons w rest ih =>
    intro db hcov n hn
    refine ih (analyze_news_item o thr db w now).1 ?_ n hn
    intro m hm hmp
    obtain ⟨item', hid, hproc, hrows⟩ := analyze_news_item_news_items o thr db w now
    rw [hrows] at hm
    rcases mem_updateNewsItem db.news_items item' m hm with rfl | ⟨hmem, hne⟩
    · rw [hproc] at hmp; cases hmp
    · obtain ⟨u, hu, huid⟩ := hcov m hmem hmp
      rcases List.mem_cons.mp hu with rfl | hu'
      · exact absurd (huid.symm.trans hid.symm) hne
      · exact ⟨u, hu', huid⟩

/-- C2: `process_pending_items` is idempotent: after one run, the snapshot
anti-join is empty and every news row is processed, so a second run with no
new input processes nothing and creates zero additional Alerts. -/
theorem C2_process_pending_idempotent (p : PageSnapshot → AnalysisResult)
    (q : NewsItem → AnalysisResult) (thr : Int) (db : DB) (now1 now2 : Int) :
    discover_page_work (process_pending_items p q thr db now1).1 = [] ∧
    (process_pending_items p q thr db now1).1.news_items.all
      (fun n => n.is_processed) = true ∧
    (process_pending_items p q thr (process_pending_items p q thr db now1).1
      now2).2.alerts_created = 0 ∧
    (process_pending_items p q thr (process_pending_items p q thr db now1).1
      now2).2.page_changes_processed = 0 ∧
    (process_pending_items p q thr (process_pending_items p q thr db now1).1
      now2).2.news_processed = 0 := by
  have hmidsnap :
      (run_page_loop p now1 db (discover_page_work db)).1.snapshots = db.snapshots :=
    (run_page_loop_rest p now1 (discover_page_work db) db).1
  have hfst : (process_pending_items p q thr db now1).1 =
      (run_news_loop q thr now1 (run_page_loop p now1 db (discover_page_work db)).1
        (discover_news_work (run_page_loop p now1 db (discover_page_work db)).1)).1 := rfl
  have hall : ∀ n ∈ (process_pending_items p q thr db now1).1.news_items,
      n.is_processed = true := by
    rw [hfst]
    apply run_news_loop_processes
    intro n hn hnp
    refine ⟨n, ?_, rfl⟩
    simp [discover_news_work, List.mem_filter, hn, hnp]
  have hsnap1 : (process_pending_items p q thr db now1).1.snapshots = db.snapshots := by
    rw [hfst, run_news_loop_snapshots, hmidsnap]
  have halerts : ∀ s : PageSnapshot, s.has_changes = true → s ∈ db.snapshots →
      ∃ a ∈ (process_pending_items p q thr db now1).1.alerts,
        a.source_type = "page_change" ∧ a.source_id = s.id := by
    intro s hc hs
    by_cases hw : s ∈ discover_page_work db
    · obtain ⟨a, ha, h1, h2⟩ := run_page_loop_covers p now1 (discover_page_work db) db s hw
      exact ⟨a, by rw [hfst]; exact run_news_loop_alerts_mono q thr now1 _ _ a ha, h1, h2⟩
    · have hany : db.alerts.any
          (fun a => a.source_type == "page_change" && a.source_id == s.id) = true := by
        by_contra hno
        refine hw ?_
        simp only [discover_page_work, List.mem_filter]
        exact ⟨hs, by simp [hc, Bool.eq_false_iff.mpr hno]⟩
      obtain ⟨a, ha, hpa⟩ := List.any_eq_true.mp hany
      simp only [Bool.and_eq_true, beq_iff_eq] at hpa
      refine ⟨a, ?_, hpa.1, hpa.2⟩
      rw [hfst]
      exact run_news_loop_alerts_mono q thr now1 _ _ a
        (run_page_loop_alerts_mono p now1 _ db a ha)
  have hpage : discover_page_work (process_pending_items p q thr db now1).1 = [] := by
    apply List.filter_eq_nil_iff.mpr
    intro s hs
    rw [hsnap1] at hs
    by_cases hc : s.has_changes = true
    · obtain ⟨a, ha, h1, h2⟩ := halerts s hc hs
      have : (process_pending_items p q thr db now1).1.alerts.any
          (fun a => a.source_type == "page_change" && a.source_id == s.id) = true :=
        List.any_eq_true.mpr ⟨a, ha, by simp [h1, h2]⟩
      simp [this]
    · simp [hc]
  have hnews : discover_news_work (process_pending_items p q thr db now1).1 = [] := by
    apply List.filter_eq_nil_iff.mpr
    intro n hn
    simp [hall n hn]
  set X := (process_pending_items p q thr db now1).1 with hX
  have hsecond : process_pending_items p q thr X now2 =
      (X, { page_changes_processed := 0, news_processed := 0, alerts_created := 0 }) := by
    simp only [process_pending_items, hpage, run_page_loop, hnews, run_news_loop]
  refine ⟨hpage, List.all_eq_true.mpr (fun n hn => by simpa using hall n hn),
    ?_, ?_, ?_⟩ <;> rw [hsecond]

/-! ## Duplicate Alerts under overlapping runs (claim C1)

The `alerts` table has no uniqueness constraint on
`(source_type, source_id)` (database.py lines 186-231), and
`process_pending_items` runs a plain anti-join query followed by
unguarded inserts.  When two orchestrator invocations overlap so that both
execute the discovery query before either inserts (e.g. a manual trigger
racing the scheduled run), both see the same changed snapshot and both
insert an Alert for it.  The interleaving below is exactly that schedule:
both runs discover against the initial store, then their loops execute one
after the other. -/

/-- A changed snapshot with no Alert yet. -/
def c1_snapshot : PageSnapshot :=
  { id := 1, monitored_url_id := 1, content_hash := "h", content := "c",
    extracted_text := "t", has_changes := true, diff_summary := some "d",
    captured_at := 0 }

/-- The monitored URL behind `c1_snapshot`. -/
def c1_mu : MonitoredURL :=
  { default_mu with id := 1, competitor_id := 1, url := "https://example.com/a" }

/-- Initial store: one changed snapshot, no Alerts. -/
def c1_db : DB :=
  { monitored_urls := [c1_mu], snapshots := [c1_snapshot], news_items := [],
    alerts := [], next_alert_id := 1 }

/-- A concrete analysis outcome for the snapshot, produced through the
`analyze_content` boundary. -/
def c1_oracle : PageSnapshot → AnalysisResult := fun _ =>
  analyze_content (fun _ => [])
    (.ok { summary := some "s", signal_type := some "pricing_change",
           risk_level := some "high", risk_score := some 75,
           confidence_score := some 90, relevance_to_fluke := some "r",
           assumptions := some [], recommended_playbook := some "default",
           immediate_actions := some [] })

/-- C1 fails on the code: when two `process_pending_items` invocations both
run the anti-join discovery before either inserts, each one's page loop
inserts an Alert for the same snapshot, leaving two Alerts with
`(source_type, source_id) = ("page_change", 1)` — the code has no uniqueness
constraint or transactional check to prevent it. -/
theorem C1_overlapping_runs_duplicate_alert :
    discover_page_work c1_db = [c1_snapshot] ∧
    ((run_page_loop c1_oracle 0
        (run_page_loop c1_oracle 0 c1_db (discover_page_work c1_db)).1
        (discover_page_work c1_db)).1.alerts.filter
      (fun a => a.source_type == "page_change" && a.source_id == c1_snapshot.id)).length
      = 2 := by decide
